import Mathlib

/-!
Verification of the download/retry/trust-fallback tool in
src/download_cisa_kev.py against its natural-language specification.

The Python program is shallowly embedded below: the code of the
`download` function (lines 23-57) and of `main` (lines 60-124) is
translated into executable Lean definitions.  Network, filesystem and
the standard-library JSON parser are collaborators of that code, so
they enter the embedding as explicit oracle parameters (an outcome per
connection attempt, a path-existence predicate, an abstract parser and
write-success flag), while every decision made by the program itself
(retry loop, backoff arithmetic, status check, SSL-error
classification, fallback orchestration, exit codes, serialisation of
the parsed JSON value) is modelled concretely.
-/

namespace KevDownload

/-- Substring helper: the first list begins with the second list. -/
def charsBeginWith : List Char → List Char → Bool
  | _, [] => true
  | [], _ :: _ => false
  | a :: as, b :: bs => a == b && charsBeginWith as bs

/-- Substring helper: the second list occurs contiguously inside the first. -/
def charsContain : List Char → List Char → Bool
  | hay, needle =>
    charsBeginWith hay needle ||
      match hay with
      | [] => false
      | _ :: hs => charsContain hs needle

/-- Python substring test: the expression needle in hay for strings
(for the non-empty needles used by the program). -/
def strContains (hay needle : String) : Bool :=
  charsContain hay.toList needle.toList

/-- Python exception values the embedded program can observe.  The
constructors record the isinstance facts the classification code at
src lines 80-95 inspects: whether the exception is an ssl.SSLError,
whether it is a urllib.error.URLError (HTTPError is a URLError
subclass) and what its reason attribute holds. -/
inductive PyExc where
  | sslError (msg : String)
  | urlError (reason : String)
  | urlErrorNoReason (msg : String)
  | httpError (code : Nat) (reason : String)
  | typeError (msg : String)
  | otherError (msg : String)
deriving DecidableEq, Repr

/-- Result of isinstance(e, ssl.SSLError) for the modelled exceptions. -/
def isSSLErrorInstance : PyExc → Bool
  | PyExc.sslError _ => true
  | _ => false

/-- Value of getattr(e, reason, None) when e is a urllib URLError and
the attribute is truthy: HTTPError is a URLError subclass whose reason
is its message string, and an empty string is falsy in Python. -/
def urlErrorReason : PyExc → Option String
  | PyExc.urlError r => if r = "" then none else some r
  | PyExc.httpError _ r => if r = "" then none else some r
  | _ => none

/-- Textual description of an exception, as str(e) or str(e.reason)
would render it; used only to compare the code classifier with the
classification rule stated in the spec. -/
def describe : PyExc → String
  | PyExc.sslError m => m
  | PyExc.urlError r => r
  | PyExc.urlErrorNoReason m => m
  | PyExc.httpError _ r => r
  | PyExc.typeError m => m
  | PyExc.otherError m => m

/-- First verification-failure indicator tested at src line 92. -/
def indicatorUpper : String := "CERTIFICATE_VERIFY_FAILED"

/-- Second verification-failure indicator tested at src line 92. -/
def indicatorLower : String := "certificate verify failed"

/-- Classification of a failure as an SSL certificate-verification
failure, translated from src lines 80-95: true when the exception is an
ssl.SSLError instance, or when it is a URLError whose truthy reason,
rendered as a string, contains one of the two indicator literals as a
case-sensitive substring. -/
def classify_is_ssl_err (e : PyExc) : Bool :=
  isSSLErrorInstance e ||
    (match urlErrorReason e with
     | some r => strContains r indicatorUpper || strContains r indicatorLower
     | none => false)

/-- Modelled from the spec: section 4.2 classification rule, a failure
is a certificate-verification failure if its textual description
contains a verification-failure indicator as a case-insensitive
substring.  Stated over the description string; used only to compare
against the classifier the code implements. -/
def spec_cert_verify_classifier (desc : String) : Bool :=
  charsContain (desc.toList.map Char.toLower) indicatorLower.toList

/-- SSL verify-mode values relevant to the program. -/
inductive VerifyMode where
  | certRequired
  | certNone
deriving DecidableEq, Repr

/-- Connection context built by download (src lines 30-37): either no
custom context (platform default trust) or a context created by
ssl.create_default_context, recording check_hostname, verify_mode and
the CA file the store was rooted at. -/
inductive SSLCtx where
  | noContext
  | custom (checkHostname : Bool) (verifyMode : VerifyMode) (cafile : Option String)
deriving DecidableEq, Repr

/-- Context construction of download, src lines 30-37: insecure wins
and disables hostname checking and certificate validation; otherwise a
given cafile roots a default context at that file; otherwise no custom
context is used. -/
def buildCtx (cafile : Option String) (insecure : Bool) : SSLCtx :=
  if insecure then
    SSLCtx.custom false VerifyMode.certNone none
  else
    match cafile with
    | some p => SSLCtx.custom true VerifyMode.certRequired (some p)
    | none => SSLCtx.noContext

/-- Outcome of one urlopen call inside an attempt: either a response
object carrying a status, body and reason, or an exception raised
before a response was obtained. -/
inductive AttemptOutcome where
  | response (status : Nat) (body : List Nat) (reason : String)
  | raised (e : PyExc)
deriving DecidableEq, Repr

/-- Body of one loop iteration of download, src lines 40-51: a raised
exception propagates; a response whose status differs from 200 raises
urllib.error.HTTPError built from that status and reason; a status-200
response returns the full body. -/
def runAttempt (o : AttemptOutcome) : Except PyExc (List Nat) :=
  match o with
  | AttemptOutcome.response status body reason =>
    if status ≠ 200 then Except.error (PyExc.httpError status reason)
    else Except.ok body
  | AttemptOutcome.raised e => Except.error e

/-- Error extracted from an attempt outcome, when the attempt fails. -/
def attemptError (o : AttemptOutcome) : Option PyExc :=
  match runAttempt o with
  | Except.ok _ => none
  | Except.error e => some e

/-- Message of the TypeError that CPython raises on raise None. -/
def raiseNoneMsg : String := "exceptions must derive from BaseException"

/-- Trace of one download call: its result, the number of attempts made
and the list of durations passed to time.sleep, in order. -/
structure DlTrace where
  outcome : Except PyExc (List Nat)
  attemptsMade : Nat
  sleeps : List ℚ
deriving Repr

/-- Retry loop of download, src lines 39-57, by recursion on the
number of remaining iterations; att counts the attempts already made
and lastExc is the last stored exception.  A success returns the body
at once; a failure on the final attempt breaks and re-raises it;
otherwise the loop sleeps backoff times the attempt number and
continues.  When the loop body never runs, raise last_exc executes
raise None, which CPython turns into a TypeError. -/
def dlGo (oracle : Nat → AttemptOutcome) (b : ℚ) :
    Nat → Nat → Option PyExc → Except PyExc (List Nat) × Nat × List ℚ
  | 0, att, lastExc =>
    (match lastExc with
     | some e => Except.error e
     | none => Except.error (PyExc.typeError raiseNoneMsg), att, [])
  | f + 1, att, _ =>
    match runAttempt (oracle (att + 1)) with
    | Except.ok body => (Except.ok body, att + 1, [])
    | Except.error e =>
      if f = 0 then (Except.error e, att + 1, [])
      else
        let r := dlGo oracle b f (att + 1) (some e)
        (r.1, r.2.1, b * ((att + 1 : Nat) : ℚ) :: r.2.2)

/-- The download function, src lines 23-57, over an oracle giving the
outcome of each connection attempt.  The retries argument is an
arbitrary integer, as the CLI permits: range at src line 39 iterates
max 0 retries times. -/
def download (oracle : Nat → AttemptOutcome) (b : ℚ) (retries : Int) : DlTrace :=
  let r := dlGo oracle b retries.toNat 0 none
  ⟨r.1, r.2.1, r.2.2⟩

/-- Default backoff of download (src line 23): 1.5 seconds, modelled
exactly as the rational three halves. -/
def defaultBackoff : ℚ := 3 / 2

mutual

/-- Parsed JSON values, as json.loads can produce them; numbers are
restricted to integers, which covers the claims about the writer. -/
inductive Json where
  | null
  | bool (b : Bool)
  | num (n : Int)
  | str (s : String)
  | arr (xs : JsonItems)
  | obj (kvs : JsonFields)

/-- Items of a JSON array. -/
inductive JsonItems where
  | nil
  | cons (x : Json) (xs : JsonItems)

/-- Fields of a JSON object, in insertion order. -/
inductive JsonFields where
  | nil
  | cons (k : String) (v : Json) (kvs : JsonFields)

end

/-- Hexadecimal digit used by the JSON string escaper. -/
def hexDigit (n : Nat) : Char :=
  if n < 10 then Char.ofNat (48 + n) else Char.ofNat (87 + n)

/-- Escape of one character inside a JSON string literal as
json.dump with ensure_ascii set to False performs it: backslash,
double quote and the named control characters get two-character
escapes, other characters below 0x20 get a four-digit unicode escape,
and everything else, non-ASCII included, is kept literally. -/
def pyEscapeChar (c : Char) : String :=
  if c = '\\' then "\\\\"
  else if c = '"' then "\\\""
  else if c = Char.ofNat 8 then "\\b"
  else if c = Char.ofNat 12 then "\\f"
  else if c = '\n' then "\\n"
  else if c = '\r' then "\\r"
  else if c = '\t' then "\\t"
  else if c.toNat < 32 then
    String.mk ['\\', 'u', '0', '0', hexDigit (c.toNat / 16), hexDigit (c.toNat % 16)]
  else String.singleton c

/-- A JSON string literal: escaped content surrounded by quotes. -/
def pyQuote (s : String) : String :=
  "\"" ++ String.join (s.toList.map pyEscapeChar) ++ "\""

/-- Indentation at nesting level lvl for indent=2. -/
def ind (lvl : Nat) : String :=
  String.mk (List.replicate (2 * lvl) ' ')

mutual

/-- Serialisation of a JSON value as json.dump(parsed, f, indent=2,
ensure_ascii=False) at src line 118 writes it, at nesting level lvl:
with a non-None indent the item separator is a comma followed by a
newline and indentation, the key separator is a colon and a space, and
empty containers print without inner whitespace. -/
def pyDumpVal (lvl : Nat) : Json → String
  | Json.null => "null"
  | Json.bool b => cond b "true" "false"
  | Json.num n => toString n
  | Json.str s => pyQuote s
  | Json.arr JsonItems.nil => "[]"
  | Json.arr (JsonItems.cons x xs) =>
    "[\n" ++ ind (lvl + 1) ++ pyDumpItems lvl x xs ++ "\n" ++ ind lvl ++ "]"
  | Json.obj JsonFields.nil => "\x7b\x7d"
  | Json.obj (JsonFields.cons k v kvs) =>
    "\x7b\n" ++ ind (lvl + 1) ++ pyDumpFields lvl k v kvs ++ "\n" ++ ind lvl ++ "\x7d"
termination_by j => sizeOf j
decreasing_by all_goals simp_wf; all_goals omega

/-- Comma-newline separated items of a non-empty array. -/
def pyDumpItems (lvl : Nat) (x : Json) : JsonItems → String
  | JsonItems.nil => pyDumpVal (lvl + 1) x
  | JsonItems.cons y ys =>
    pyDumpVal (lvl + 1) x ++ ",\n" ++ ind (lvl + 1) ++ pyDumpItems lvl y ys
termination_by xs => sizeOf x + sizeOf xs
decreasing_by all_goals simp_wf; all_goals omega

/-- Comma-newline separated key-value pairs of a non-empty object. -/
def pyDumpFields (lvl : Nat) (k : String) (v : Json) : JsonFields → String
  | JsonFields.nil => pyQuote k ++ ": " ++ pyDumpVal (lvl + 1) v
  | JsonFields.cons k2 v2 kvs =>
    pyQuote k ++ ": " ++ pyDumpVal (lvl + 1) v ++ ",\n" ++ ind (lvl + 1) ++
      pyDumpFields lvl k2 v2 kvs
termination_by kvs => sizeOf v + sizeOf kvs
decreasing_by all_goals simp_wf; all_goals omega

end

/-- Full serialisation of the parsed value, at top level.  json.dump
writes exactly this string and nothing after it: no trailing newline. -/
def pyJsonDumps (v : Json) : String :=
  pyDumpVal 0 v

/-- Command-line arguments of main after parsing, src lines 61-67.
The retries value is an arbitrary integer, as argparse accepts. -/
structure Args where
  output : String
  force : Bool
  retries : Int
  insecure : Bool
  cafile : Option String

/-- Environment of one run of main: the collaborators the program
talks to.  Each download call consumes its own oracle of per-attempt
outcomes; certifiAvailable tells whether import certifi succeeds and
certifiPath is the bundle path certifi.where() returns; parseJson
abstracts raw.decode and json.loads (none for either failure); writeOk
tells whether opening and writing the output file succeeds. -/
structure Env where
  pathExists : String → Bool
  primaryOracle : Nat → AttemptOutcome
  certifiAvailable : Bool
  certifiPath : String
  fallbackOracle : Nat → AttemptOutcome
  parseJson : List Nat → Option Json
  writeOk : Bool

/-- One call of the download function, as observed from outside: the
connection context it builds and the retry count it is given. -/
structure FetchCall where
  ctx : SSLCtx
  retries : Int
deriving DecidableEq, Repr

/-- Observable outcome of main: the process exit code (0 for a normal
return), the download calls made in order, and the file write that
completed (path and content), if any. -/
structure MainResult where
  exitCode : Nat
  fetches : List FetchCall
  written : Option (String × String)
deriving DecidableEq, Repr

/-- Trace of the primary download call of main, src line 76: the URL
is fetched with the retry count, cafile and insecure flag the caller
supplied and the default backoff. -/
def primaryTrace (args : Args) (env : Env) : DlTrace :=
  download env.primaryOracle defaultBackoff args.retries

/-- Trace of the certifi fallback download call of main, src line 101:
same retry count, certifi bundle as cafile, insecure False. -/
def fallbackTrace (args : Args) (env : Env) : DlTrace :=
  download env.fallbackOracle defaultBackoff args.retries

/-- Tail of main after raw bytes were obtained, src lines 110-123:
parse the bytes as UTF-8 JSON or exit 3; serialise with indent 2 and
ensure_ascii False and write to the output path or exit 4; on success
print the destination and return, exit code 0. -/
def finishPhase (args : Args) (env : Env) (raw : List Nat)
    (fs : List FetchCall) : MainResult :=
  match env.parseJson raw with
  | none => ⟨3, fs, none⟩
  | some parsed =>
    if env.writeOk then ⟨0, fs, some (args.output, pyJsonDumps parsed)⟩
    else ⟨4, fs, none⟩

/-- The main function, src lines 60-123, after argument parsing.  If
the output path exists and force is absent, exit 1 before any network
activity.  Otherwise run the primary download; on success continue
with the parse-and-write phase.  On failure classify the exception;
when it is classified as an SSL verification failure and the caller
passed neither insecure nor a cafile, import certifi and run the
fallback download with the same retry count, continuing on its
success and exiting 2 on its failure or when certifi is unavailable;
any other failure exits 2 at once. -/
def mainRun (args : Args) (env : Env) : MainResult :=
  if env.pathExists args.output && !args.force then ⟨1, [], none⟩
  else
    match (primaryTrace args env).outcome with
    | Except.ok raw =>
      finishPhase args env raw [⟨buildCtx args.cafile args.insecure, args.retries⟩]
    | Except.error e =>
      if classify_is_ssl_err e && !args.insecure && args.cafile.isNone then
        if env.certifiAvailable then
          match (fallbackTrace args env).outcome with
          | Except.ok raw =>
            finishPhase args env raw
              [⟨buildCtx args.cafile args.insecure, args.retries⟩,
               ⟨buildCtx (some env.certifiPath) false, args.retries⟩]
          | Except.error _ =>
            ⟨2,
             [⟨buildCtx args.cafile args.insecure, args.retries⟩,
              ⟨buildCtx (some env.certifiPath) false, args.retries⟩],
             none⟩
        else ⟨2, [⟨buildCtx args.cafile args.insecure, args.retries⟩], none⟩
      else ⟨2, [⟨buildCtx args.cafile args.insecure, args.retries⟩], none⟩

/-- C9: when both insecure and a CA-file path are supplied to the fetch
routine, insecure wins: the context disables certificate validation and
hostname verification and the CA file is ignored; with only a CA file
the context is rooted at that file with full verification; with
neither, no custom context is built, so platform default trust is
used; insecure alone also disables verification. -/
theorem buildCtx_trust_precedence (p : String) :
    buildCtx (some p) true = SSLCtx.custom false VerifyMode.certNone none ∧
    buildCtx (some p) false = SSLCtx.custom true VerifyMode.certRequired (some p) ∧
    buildCtx none false = SSLCtx.noContext ∧
    buildCtx none true = SSLCtx.custom false VerifyMode.certNone none := by
  refine ⟨rfl, rfl, rfl, rfl⟩

/-- C6 counterexample: a response with the 2xx status 204 is not
treated as success; the attempt raises an HTTPError for it, refuting
the claim that every 2xx status returns the body. -/
theorem runAttempt_status_204_not_success :
    runAttempt (AttemptOutcome.response 204 [72] "No Content") =
      Except.error (PyExc.httpError 204 "No Content") ∧
    runAttempt (AttemptOutcome.response 204 [72] "No Content") ≠
      Except.ok [72] := by
  refine ⟨rfl, fun h => ?_⟩
  rw [show runAttempt (AttemptOutcome.response 204 [72] "No Content") =
    Except.error (PyExc.httpError 204 "No Content") from rfl] at h
  exact Except.noConfusion h

/-- C6 amended: within one attempt a response is a success, returning
the full body, exactly when its status is 200; any other status,
2xx statuses other than 200 included, raises an HTTPError carrying
that status and reason, which the retry loop treats like any other
transport error. -/
theorem runAttempt_success_iff_status_200 (status : Nat) (body : List Nat)
    (reason : String) :
    (runAttempt (AttemptOutcome.response status body reason) = Except.ok body ↔
      status = 200) ∧
    (runAttempt (AttemptOutcome.response status body reason) =
        Except.error (PyExc.httpError status reason) ↔ status ≠ 200) := by
  unfold runAttempt
  split
  · simp_all
  · simp_all

/-- C2 counterexample: a URLError whose reason reads Certificate
Verify Failed contains the verification indicator case-insensitively,
so the claimed classifier accepts its description, yet the program
classifier rejects it, because the substring tests at src line 92 are
case-sensitive. -/
theorem classify_not_case_insensitive :
    spec_cert_verify_classifier
        (describe (PyExc.urlError "Certificate Verify Failed")) = true ∧
    classify_is_ssl_err (PyExc.urlError "Certificate Verify Failed") = false := by
  exact ⟨by decide, by decide⟩

/-- C2 amended: the program classifies a failure as a
certificate-verification failure exactly when the exception is an
ssl.SSLError instance, whatever its text, or is a urllib URLError
whose truthy reason contains, as a case-sensitive substring, one of
the two literals CERTIFICATE_VERIFY_FAILED and certificate verify
failed. -/
theorem classify_characterisation (e : PyExc) :
    classify_is_ssl_err e = true ↔
      (isSSLErrorInstance e = true ∨
        ∃ r, urlErrorReason e = some r ∧
          (strContains r indicatorUpper = true ∨
           strContains r indicatorLower = true)) := by
  unfold classify_is_ssl_err
  cases h : urlErrorReason e <;> simp_all [Bool.or_eq_true]

/-- C10: a download call with a non-positive retry count runs the loop
body zero times and sleeps zero times, then executes raise None, which
CPython surfaces as a TypeError rather than any transport error. -/
theorem download_nonpositive_retries (oracle : Nat → AttemptOutcome) (b : ℚ)
    (retries : Int) (h : retries ≤ 0) :
    download oracle b retries =
      ⟨Except.error (PyExc.typeError raiseNoneMsg), 0, []⟩ := by
  have h0 : retries.toNat = 0 := Int.toNat_of_nonpos h
  simp [download, h0, dlGo]

/-- C10 witness: the zero-retries instance, as the CLI produces for
the flag value 0. -/
theorem download_nonpositive_retries_witness :
    download (fun _ => AttemptOutcome.response 200 [1] "OK") defaultBackoff 0 =
      ⟨Except.error (PyExc.typeError raiseNoneMsg), 0, []⟩ :=
  download_nonpositive_retries (fun _ => AttemptOutcome.response 200 [1] "OK")
    defaultBackoff 0 (by decide)

/-- C8: whenever the output path exists and force is absent, main
exits with code 1 having made no download call and written nothing,
so the existing file is untouched. -/
theorem main_dest_exists_guard (args : Args) (env : Env)
    (h1 : env.pathExists args.output = true) (h2 : args.force = false) :
    mainRun args env = ⟨1, [], none⟩ := by
  simp [mainRun, h1, h2]

/-- C8 witness: a concrete run against an existing destination. -/
theorem main_dest_exists_guard_witness :
    mainRun ⟨"kev.json", false, 3, false, none⟩
      ⟨fun _ => true, fun _ => AttemptOutcome.response 200 [1] "OK", true,
       "/certifi/cacert.pem", fun _ => AttemptOutcome.response 200 [1] "OK",
       fun _ => none, true⟩ = ⟨1, [], none⟩ :=
  main_dest_exists_guard _ _ rfl rfl

lemma attemptError_eq_some {o : AttemptOutcome} {e : PyExc}
    (h : attemptError o = some e) : runAttempt o = Except.error e := by
  unfold attemptError at h
  cases h' : runAttempt o <;> simp_all

lemma dlGo_succ (oracle : Nat → AttemptOutcome) (b : ℚ) (f att : Nat)
    (le : Option PyExc) :
    dlGo oracle b (f + 1) att le =
      match runAttempt (oracle (att + 1)) with
      | Except.ok body => (Except.ok body, att + 1, [])
      | Except.error e =>
        if f = 0 then (Except.error e, att + 1, [])
        else
          ((dlGo oracle b f (att + 1) (some e)).1,
           (dlGo oracle b f (att + 1) (some e)).2.1,
           b * ((att + 1 : Nat) : ℚ) :: (dlGo oracle b f (att + 1) (some e)).2.2) :=
  rfl

lemma dlGo_all_fail (oracle : Nat → AttemptOutcome) (b : ℚ) (e : Nat → PyExc)
    (hfail : ∀ k, attemptError (oracle k) = some (e k)) :
    ∀ f a le, 1 ≤ f →
      dlGo oracle b f a le =
        (Except.error (e (a + f)), a + f,
          (List.range' (a + 1) (f - 1)).map fun n : Nat => b * (n : ℚ)) := by
  intro f
  induction f with
  | zero => intro a le h; exact absurd h (by omega)
  | succ f ih =>
    intro a le _
    have hr : runAttempt (oracle (a + 1)) = Except.error (e (a + 1)) :=
      attemptError_eq_some (hfail (a + 1))
    cases f with
    | zero => simp [dlGo, hr]
    | succ f2 =>
      have ihr := ih (a + 1) (some (e (a + 1))) (by omega)
      have h2 : a + 1 + (f2 + 1) = a + (f2 + 1 + 1) := by omega
      have h3 : ¬ (f2 + 1 = 0) := by omega
      rw [dlGo_succ, hr]
      simp only [h3, if_false, ihr, Nat.add_sub_cancel]
      rw [List.range'_succ, List.map_cons, ← h2]

/-- C4: for every retry count N of at least 1, a download whose every
attempt fails performs exactly N connection attempts and re-raises the
error of the last attempt; no attempt beyond the N-th occurs. -/
theorem download_all_fail_attempts (oracle : Nat → AttemptOutcome) (b : ℚ)
    (N : Nat) (hN : 1 ≤ N) (e : Nat → PyExc)
    (hfail : ∀ k, attemptError (oracle k) = some (e k)) :
    (download oracle b ((N : Nat) : Int)).attemptsMade = N ∧
    (download oracle b ((N : Nat) : Int)).outcome = Except.error (e N) := by
  have h := dlGo_all_fail oracle b e hfail N 0 none hN
  simp [download, Int.toNat_natCast, h]

/-- Oracle whose every attempt raises a URLError naming the attempt. -/
def failOracle : Nat → AttemptOutcome :=
  fun k => AttemptOutcome.raised (PyExc.urlError (toString k))

/-- The per-attempt errors raised by failOracle. -/
def failExcs : Nat → PyExc := fun k => PyExc.urlError (toString k)

/-- C4 witness: three attempts, the error of attempt three surfaces. -/
theorem download_all_fail_attempts_witness :
    (download failOracle defaultBackoff ((3 : Nat) : Int)).attemptsMade = 3 ∧
    (download failOracle defaultBackoff ((3 : Nat) : Int)).outcome =
      Except.error (failExcs 3) :=
  download_all_fail_attempts failOracle defaultBackoff 3 (by decide) failExcs
    (fun _ => rfl)

/-- C5: in a failing download run of N attempts, the sleeps issued
are, in order, exactly backoff times 1 up to backoff times N minus 1;
so the delay before attempt n is backoff times n minus 1, no sleep
follows the final attempt, and there is no jitter and no cap. -/
theorem download_sleep_schedule (oracle : Nat → AttemptOutcome) (b : ℚ)
    (N : Nat) (hN : 1 ≤ N) (e : Nat → PyExc)
    (hfail : ∀ k, attemptError (oracle k) = some (e k)) :
    (download oracle b ((N : Nat) : Int)).sleeps =
      (List.range' 1 (N - 1)).map fun n : Nat => b * (n : ℚ) := by
  have h := dlGo_all_fail oracle b e hfail N 0 none hN
  simp [download, Int.toNat_natCast, h]

/-- C5 witness: with three failing attempts and the default backoff,
the slept delays are the image of 1 and 2 under multiplication by the
backoff. -/
theorem download_sleep_schedule_witness :
    (download failOracle defaultBackoff ((3 : Nat) : Int)).sleeps =
      (List.range' 1 (3 - 1)).map fun n : Nat => defaultBackoff * (n : ℚ) :=
  download_sleep_schedule failOracle defaultBackoff 3 (by decide) failExcs
    (fun _ => rfl)

/-- Condition under which main runs the certifi fallback, src line 97:
the exception is classified as an SSL verification failure and the
caller passed neither the insecure flag nor a cafile. -/
def fallbackEligible (args : Args) (e : PyExc) : Prop :=
  classify_is_ssl_err e = true ∧ args.insecure = false ∧ args.cafile = none

/-- The raw bytes main continues with: the destination guard passed
and either the primary download succeeded with them, or it failed with
a fallback-eligible error, certifi imported, and the fallback download
succeeded with them. -/
def rawObtained (args : Args) (env : Env) (raw : List Nat) : Prop :=
  (env.pathExists args.output && !args.force) = false ∧
    ((primaryTrace args env).outcome = Except.ok raw ∨
      ∃ e, (primaryTrace args env).outcome = Except.error e ∧
        fallbackEligible args e ∧ env.certifiAvailable = true ∧
        (fallbackTrace args env).outcome = Except.ok raw)

lemma eligible_bool_iff (args : Args) (e : PyExc) :
    (classify_is_ssl_err e && !args.insecure && args.cafile.isNone) = true ↔
      fallbackEligible args e := by
  unfold fallbackEligible
  cases args.cafile <;> simp [Bool.and_eq_true, Bool.not_eq_true']

lemma finishPhase_fetches (args : Args) (env : Env) (raw : List Nat)
    (fs : List FetchCall) : (finishPhase args env raw fs).fetches = fs := by
  unfold finishPhase
  cases env.parseJson raw
  · rfl
  · cases env.writeOk <;> simp

lemma mainRun_fetches_length (args : Args) (env : Env) :
    (mainRun args env).fetches.length ≤ 2 := by
  unfold mainRun
  split
  · simp
  · split
    · simp [finishPhase_fetches]
    · split
      · split
        · split <;> simp [finishPhase_fetches]
        · simp
      · simp

/-- C1: when the primary download raises, the certifi fallback runs
exactly once and only when the failure is classified as a
certificate-verification failure, neither insecure nor a cafile was
passed, and certifi imports; the primary ran with default trust and
the fallback reuses the same retry count with the certifi bundle as
trust root.  A failure not so classified exits with code 2 at once,
with no fallback fetch.  No run ever makes more than two download
calls. -/
theorem main_fallback_once (args : Args) (env : Env) (e : PyExc)
    (hguard : (env.pathExists args.output && !args.force) = false)
    (hfail : (primaryTrace args env).outcome = Except.error e) :
    ((classify_is_ssl_err e = true ∧ args.insecure = false ∧ args.cafile = none ∧
        env.certifiAvailable = true) →
      (mainRun args env).fetches =
        [⟨SSLCtx.noContext, args.retries⟩,
         ⟨SSLCtx.custom true VerifyMode.certRequired (some env.certifiPath),
          args.retries⟩]) ∧
    ((classify_is_ssl_err e = false ∨ args.insecure = true ∨ args.cafile ≠ none) →
      (mainRun args env).exitCode = 2 ∧
      (mainRun args env).fetches =
        [⟨buildCtx args.cafile args.insecure, args.retries⟩]) ∧
    (mainRun args env).fetches.length ≤ 2 := by
  refine ⟨?_, ?_, mainRun_fetches_length args env⟩
  · rintro ⟨h1, h2, h3, h4⟩
    simp only [mainRun, hguard, Bool.false_eq_true, if_false, hfail, h1, h2, h3, h4,
      Bool.not_false, Option.isNone_none, Bool.and_self, if_true]
    cases hF : (fallbackTrace args env).outcome <;>
      simp [hF, finishPhase_fetches, buildCtx]
  · intro h
    have hcond : (classify_is_ssl_err e && !args.insecure && args.cafile.isNone)
        = false := by
      rcases h with h | h | h
      · simp [h]
      · simp [h]
      · cases hc : args.cafile
        · exact absurd hc h
        · simp [hc]
    simp [mainRun, hguard, hfail, hcond]

/-- Oracle whose every attempt raises an SSL verification error, as a
failing TLS handshake produces. -/
def sslFailOracle : Nat → AttemptOutcome :=
  fun _ => AttemptOutcome.raised (PyExc.sslError
    "certificate verify failed: unable to get local issuer certificate")

/-- A default argument vector: default output, no force, three
retries, no insecure flag, no cafile. -/
def witArgs : Args :=
  ⟨"known_exploited_vulnerabilities.json", false, 3, false, none⟩

/-- Environment where the destination is absent, the primary fetch
always fails the TLS handshake and the certifi fallback succeeds. -/
def witEnvC1 : Env :=
  ⟨fun _ => false, sslFailOracle, true, "/certifi/cacert.pem",
   fun _ => AttemptOutcome.response 200 [123, 125] "OK",
   fun _ => some (Json.obj JsonFields.nil), true⟩

/-- C1 witness: with a verification failure, default trust flags and
certifi present, the run makes exactly the default-trust fetch and one
certifi-rooted fallback fetch, both with retry count three. -/
theorem main_fallback_once_witness :
    (mainRun witArgs witEnvC1).fetches =
      [⟨SSLCtx.noContext, (3 : Int)⟩,
       ⟨SSLCtx.custom true VerifyMode.certRequired (some "/certifi/cacert.pem"),
        (3 : Int)⟩] :=
  (main_fallback_once witArgs witEnvC1
      (PyExc.sslError
        "certificate verify failed: unable to get local issuer certificate")
      rfl rfl).1 ⟨rfl, rfl, rfl, rfl⟩

lemma finishPhase_exit (args : Args) (env : Env) (raw : List Nat)
    (fs : List FetchCall) :
    ((finishPhase args env raw fs).exitCode = 3 ↔ env.parseJson raw = none) ∧
    ((finishPhase args env raw fs).exitCode = 4 ↔
      (∃ j, env.parseJson raw = some j) ∧ env.writeOk = false) ∧
    ((finishPhase args env raw fs).exitCode = 0 ↔
      (∃ j, env.parseJson raw = some j) ∧ env.writeOk = true) ∧
    (finishPhase args env raw fs).exitCode ≠ 1 ∧
    (finishPhase args env raw fs).exitCode ≠ 2 ∧
    (finishPhase args env raw fs).exitCode ≤ 4 := by
  unfold finishPhase
  cases hj : env.parseJson raw <;> cases hw : env.writeOk <;> simp [hj, hw]

/-- C3: the exit code of main is exactly 1 when the destination exists
without force; 2 when, past that guard, the primary download fails and
either no fallback is eligible, certifi is unavailable, or the
fallback download fails too; 3 when bytes were obtained but are not
valid UTF-8 JSON; 4 when they parse but the file write fails; 0 when
the write succeeds; and the code never exceeds 4, so no other exit
code occurs. -/
theorem main_exit_code_spec (args : Args) (env : Env) :
    ((mainRun args env).exitCode = 1 ↔
      (env.pathExists args.output && !args.force) = true) ∧
    ((mainRun args env).exitCode = 2 ↔
      ((env.pathExists args.output && !args.force) = false ∧
        ∃ e, (primaryTrace args env).outcome = Except.error e ∧
          (¬ fallbackEligible args e ∨ env.certifiAvailable = false ∨
            ∃ e2, (fallbackTrace args env).outcome = Except.error e2))) ∧
    ((mainRun args env).exitCode = 3 ↔
      ∃ raw, rawObtained args env raw ∧ env.parseJson raw = none) ∧
    ((mainRun args env).exitCode = 4 ↔
      ∃ raw j, rawObtained args env raw ∧ env.parseJson raw = some j ∧
        env.writeOk = false) ∧
    ((mainRun args env).exitCode = 0 ↔
      ∃ raw j, rawObtained args env raw ∧ env.parseJson raw = some j ∧
        env.writeOk = true) ∧
    (mainRun args env).exitCode ≤ 4 := by
  by_cases hg : (env.pathExists args.output && !args.force) = true
  · have hmain : mainRun args env = ⟨1, [], none⟩ := by simp [mainRun, hg]
    simp [hmain, hg, rawObtained]
  · have hg' : (env.pathExists args.output && !args.force) = false :=
      Bool.not_eq_true _ ▸ Bool.eq_false_iff.mpr hg
    cases hP : (primaryTrace args env).outcome with
    | ok raw =>
      have hmain : mainRun args env =
          finishPhase args env raw
            [⟨buildCtx args.cafile args.insecure, args.retries⟩] := by
        simp [mainRun, hg', hP]
      have hfe := finishPhase_exit args env raw
        [⟨buildCtx args.cafile args.insecure, args.retries⟩]
      have hraw : ∀ raw2, rawObtained args env raw2 ↔ raw = raw2 := by
        intro raw2
        simp [rawObtained, hg', hP]
      simp [hmain, hfe.1, hfe.2.1, hfe.2.2.1, hfe.2.2.2.1, hfe.2.2.2.2.1,
        hfe.2.2.2.2.2, hg', hP, hraw]
    | error e =>
      by_cases hel : fallbackEligible args e
      · have hcond : (classify_is_ssl_err e && !args.insecure &&
            args.cafile.isNone) = true := (eligible_bool_iff args e).mpr hel
        cases hca : env.certifiAvailable with
        | false =>
          have hmain : mainRun args env =
              ⟨2, [⟨buildCtx args.cafile args.insecure, args.retries⟩], none⟩ := by
            simp [mainRun, hg', hP, hcond, hca]
          have hraw : ∀ raw2, ¬ rawObtained args env raw2 := by
            intro raw2
            simp [rawObtained, hg', hP, hca]
          simp [hmain, hg', hP, hraw, hca]
        | true =>
          cases hF : (fallbackTrace args env).outcome with
          | ok raw =>
            have hmain : mainRun args env =
                finishPhase args env raw
                  [⟨buildCtx args.cafile args.insecure, args.retries⟩,
                   ⟨buildCtx (some env.certifiPath) false, args.retries⟩] := by
              simp [mainRun, hg', hP, hcond, hca, hF]
            have hfe := finishPhase_exit args env raw
              [⟨buildCtx args.cafile args.insecure, args.retries⟩,
               ⟨buildCtx (some env.certifiPath) false, args.retries⟩]
            have hraw : ∀ raw2, rawObtained args env raw2 ↔ raw = raw2 := by
              intro raw2
              simp [rawObtained, hg', hP, hel, hca, hF]
            simp [hmain, hfe.1, hfe.2.1, hfe.2.2.1, hfe.2.2.2.1,
              hfe.2.2.2.2.1, hfe.2.2.2.2.2, hg', hP, hraw, hel, hca, hF]
          | error e2 =>
            have hmain : mainRun args env =
                ⟨2,
                 [⟨buildCtx args.cafile args.insecure, args.retries⟩,
                  ⟨buildCtx (some env.certifiPath) false, args.retries⟩],
                 none⟩ := by
              simp [mainRun, hg', hP, hcond, hca, hF]
            have hraw : ∀ raw2, ¬ rawObtained args env raw2 := by
              intro raw2
              simp [rawObtained, hg', hP, hF]
            simp [hmain, hg', hP, hraw, hF]
      · have hcond : (classify_is_ssl_err e && !args.insecure &&
            args.cafile.isNone) = false := by
          cases h : (classify_is_ssl_err e && !args.insecure &&
            args.cafile.isNone)
          · rfl
          · exact absurd ((eligible_bool_iff args e).mp h) hel
        have hmain : mainRun args env =
            ⟨2, [⟨buildCtx args.cafile args.insecure, args.retries⟩], none⟩ := by
          simp [mainRun, hg', hP, hcond]
        have hraw : ∀ raw2, ¬ rawObtained args env raw2 := by
          intro raw2
          simp [rawObtained, hg', hP, hel]
        simp [hmain, hg', hP, hraw, hel]

/-- Environment for a fully successful run: destination absent, first
connection attempt answers 200 with a two-byte body that parses to the
object with single key a and value 1, and the file write succeeds. -/
def witEnvC7 : Env :=
  ⟨fun _ => false, fun _ => AttemptOutcome.response 200 [123, 125] "OK", true,
   "/certifi/cacert.pem", fun _ => AttemptOutcome.response 200 [123, 125] "OK",
   fun raw =>
     if raw = [123, 125] then
       some (Json.obj (JsonFields.cons "a" (Json.num 1) JsonFields.nil))
     else none,
   true⟩

lemma pyJsonDumps_singleton_a :
    pyJsonDumps (Json.obj (JsonFields.cons "a" (Json.num 1) JsonFields.nil)) =
      "\x7b\n  \"a\": 1\n\x7d" := by
  simp [pyJsonDumps, pyDumpVal, pyDumpFields, pyQuote, pyEscapeChar, ind]
  rfl

/-- C7 counterexample: in a successful run whose body parses to the
object with key a and value 1, the file content is exactly the
two-space-indented pretty form with no trailing newline, and that
content differs from the claimed content with a trailing newline
appended. -/
theorem main_written_no_trailing_newline :
    (mainRun witArgs witEnvC7).written =
      some ("known_exploited_vulnerabilities.json", "\x7b\n  \"a\": 1\n\x7d") ∧
    (mainRun witArgs witEnvC7).exitCode = 0 ∧
    ("\x7b\n  \"a\": 1\n\x7d" : String) ≠ "\x7b\n  \"a\": 1\n\x7d" ++ "\n" := by
  have h : mainRun witArgs witEnvC7 =
      finishPhase witArgs witEnvC7 [123, 125] [⟨SSLCtx.noContext, (3 : Int)⟩] :=
    rfl
  refine ⟨?_, ?_, by decide⟩
  · rw [h, show finishPhase witArgs witEnvC7 [123, 125]
        [⟨SSLCtx.noContext, (3 : Int)⟩] =
        ⟨0, [⟨SSLCtx.noContext, (3 : Int)⟩],
         some ("known_exploited_vulnerabilities.json",
           pyJsonDumps (Json.obj (JsonFields.cons "a" (Json.num 1)
             JsonFields.nil)))⟩ from rfl,
      pyJsonDumps_singleton_a]
  · rw [h]
    rfl

/-- C7 amended: a successful run writes to the output path exactly the
serialisation of the parsed value with two-space indentation and
non-ASCII characters kept literally, with no trailing newline; for the
body parsing to the object with key a and value 1 that content is the
open brace, newline, two spaces, quoted a, colon, space, 1, newline,
close brace, and a non-ASCII string value stays unescaped. -/
theorem main_written_pretty (args : Args) (env : Env) (raw : List Nat) (j : Json)
    (hguard : (env.pathExists args.output && !args.force) = false)
    (hok : (primaryTrace args env).outcome = Except.ok raw)
    (hparse : env.parseJson raw = some j)
    (hwrite : env.writeOk = true) :
    (mainRun args env).written = some (args.output, pyJsonDumps j) ∧
    (mainRun args env).exitCode = 0 ∧
    pyJsonDumps (Json.obj (JsonFields.cons "a" (Json.num 1) JsonFields.nil)) =
      "\x7b\n  \"a\": 1\n\x7d" ∧
    pyJsonDumps (Json.str "café") = "\"café\"" := by
  have hmain : mainRun args env =
      finishPhase args env raw
        [⟨buildCtx args.cafile args.insecure, args.retries⟩] := by
    simp [mainRun, hguard, hok]
  refine ⟨?_, ?_, pyJsonDumps_singleton_a, ?_⟩
  · rw [hmain]
    unfold finishPhase
    rw [hparse]
    simp [hwrite]
  · rw [hmain]
    unfold finishPhase
    rw [hparse]
    simp [hwrite]
  · simp [pyJsonDumps, pyDumpVal, pyQuote, pyEscapeChar]
    rfl

/-- C7 witness: the concrete successful run, written through the
amended statement. -/
theorem main_written_pretty_witness :
    (mainRun witArgs witEnvC7).written =
      some ("known_exploited_vulnerabilities.json",
        pyJsonDumps (Json.obj (JsonFields.cons "a" (Json.num 1)
          JsonFields.nil))) ∧
    (mainRun witArgs witEnvC7).exitCode = 0 ∧
    pyJsonDumps (Json.obj (JsonFields.cons "a" (Json.num 1) JsonFields.nil)) =
      "\x7b\n  \"a\": 1\n\x7d" ∧
    pyJsonDumps (Json.str "café") = "\"café\"" :=
  main_written_pretty witArgs witEnvC7 [123, 125]
    (Json.obj (JsonFields.cons "a" (Json.num 1) JsonFields.nil))
    rfl rfl rfl rfl

end KevDownload
